import Mathlib

/-!
Shallow embedding of the Movie-Watchlist-TMDB server (routes/movies.js and
app.js) and proofs about its record store, route handlers and TMDB client.

Modelling conventions:
- The JSON data file is modelled as a `List Movie` threaded through each
  handler; every mutating handler returns the response together with the
  list it would persist (`writeMovies`).
- JavaScript numbers that the code compares with `===` or bounds-checks are
  modelled as `Int` (ids, statuses) or `ℚ` (route ids parsed with `Number`,
  ratings, which may be fractional). `NaN` / non-finite results of `Number`
  are modelled as `none` of an `Option`.
- Exceptions (a rejected `fetch` promise propagating out of an `async`
  handler) are modelled with `Except Unit`; `.error ()` is a thrown error
  that reaches the central Express error handler.
- The network is a parameter `net : TmdbRequest → FetchOutcome α` so that
  theorems can quantify over every upstream behaviour.
-/

namespace MovieWatchlist

/-- Movie record as persisted in data/movies.json and created by
`POST /movies` in routes/movies.js. -/
structure Movie where
  id : Int
  tmdb_id : Option Int
  title : String
  year : Option String
  poster_path : Option String
  overview : String
  watched : Bool
  watchlist : Bool
  liked : Bool
  rating : Option ℚ
  review : String
deriving DecidableEq, Repr

/-- JavaScript truthiness of a nullable number (`null`, `0` and `NaN` are
falsy); used by `if (tmdb_id)` and `if (movie.tmdb_id)` in routes/movies.js. -/
def optIntTruthy : Option Int → Bool
  | none => false
  | some n => n != 0

/-- Result of JavaScript `String(x)` on a nullable number: `String(null)`
is the text "null". Used by the duplicate check in `POST /movies`. -/
def jsStr : Option Int → String
  | none => "null"
  | some n => toString n

/-- Whitespace stripped from the front of a character list; helper for
`jsTrim`. -/
def dropLeadingWs : List Char → List Char
  | [] => []
  | c :: cs => if c.isWhitespace then dropLeadingWs cs else c :: cs

/-- Model of the JavaScript `String.prototype.trim` builtin: strip
whitespace from both ends. Defined by structural recursion so that concrete
inputs evaluate inside proofs. -/
def jsTrim (s : String) : String :=
  String.mk (List.reverse (dropLeadingWs (List.reverse (dropLeadingWs s.data))))

/-- Membership of a character in a character list; helper for the model of
`String.prototype.includes`. -/
def charListHas (c : Char) : List Char → Bool
  | [] => false
  | d :: ds => if d = c then true else charListHas c ds

/-- Model of the JavaScript `finalUrl.includes("?")` test of
routes/movies.js line 75, for a one-character needle. -/
def jsIncludesChar (s : String) (c : Char) : Bool :=
  charListHas c s.data

/-- Transcription of `nextId` (routes/movies.js lines 41-45):
`movies.reduce((max, m) => Math.max(max, Number(m.id) || 0), 0) + 1`.
Ids are modelled as `Int`, on which `Number(m.id) || 0` is the identity
except at `0`, where `0 || 0` is again `0`. -/
def nextId (movies : List Movie) : Int :=
  movies.foldl (fun mx m => max mx m.id) 0 + 1

/-- Body of `POST /movies` as the handler reads it: each field is absent
(`undefined`) or carries a value of the type the handler coerces it to. -/
structure PostBody where
  tmdb_id : Option Int
  title : Option String
  year : Option String
  poster_path : Option String
  overview : Option String

/-- Responses of `POST /movies`. -/
inductive PostResponse
  | titleRequired
  | conflict
  | created (movie : Movie)
deriving DecidableEq, Repr

/-- Transcription of `router.post("/")` (routes/movies.js lines 192-231).
`titleRequired` is the 400 "Title is required.", `conflict` the 409
"Movie already exists in watchlist.", `created` the 201 with the new record.
The second component is the list passed to `writeMovies` (unchanged when no
write happens). -/
def postMovie (movies : List Movie) (body : PostBody) : PostResponse × List Movie :=
  let tmdb_id := body.tmdb_id
  let title := jsTrim (body.title.getD "")
  let year := match body.year with
    | some s => if s.isEmpty then none else some (jsTrim s)
    | none => none
  let poster_path := body.poster_path
  let overview := match body.overview with
    | some s => if s.isEmpty then "" else s
    | none => ""
  if title.isEmpty then (.titleRequired, movies)
  else if optIntTruthy tmdb_id && movies.any (fun m => jsStr m.tmdb_id == jsStr tmdb_id) then
    (.conflict, movies)
  else
    let newMovie : Movie :=
      { id := nextId movies
        tmdb_id := if optIntTruthy tmdb_id then tmdb_id else none
        title := title
        year := year
        poster_path := poster_path
        overview := overview
        watched := false
        watchlist := true
        liked := false
        rating := none
        review := "" }
    (.created newMovie, movies ++ [newMovie])

/-- Predicate `(m) => Number(m.id) === id` used by every per-id route to
locate a record; the route id is a finite JavaScript number, hence a `ℚ`. -/
def idMatch (id : ℚ) (m : Movie) : Bool :=
  (m.id : ℚ) == id

/-- Mutation of the first list element satisfying `p`, leaving the rest in
place. This models the JavaScript pattern `const movie = movies.find(p);
mutate(movie); writeMovies(movies)`: the found element is an alias into the
array, so mutating it and rewriting the array replaces exactly the first
match. -/
def setFirst (p : Movie → Bool) (f : Movie → Movie) : List Movie → List Movie
  | [] => []
  | m :: ms => if p m then f m :: ms else m :: setFirst p f ms

/-- Flag targeted by the dedicated toggle endpoints
`PUT /movies/:id/watched`, `/liked`, `/watchlist`. -/
inductive FlagName
  | watched
  | watchlist
  | liked
deriving DecidableEq, Repr

/-- JavaScript `movie[flagName] = v` for the three boolean flags. -/
def setFlagField : FlagName → Bool → Movie → Movie
  | .watched, v, m => { m with watched := v }
  | .watchlist, v, m => { m with watchlist := v }
  | .liked, v, m => { m with liked := v }

/-- Responses of the toggle endpoints. -/
inductive ToggleResponse
  | invalidId
  | notFound
  | ok (movie : Movie)
deriving DecidableEq, Repr

/-- Transcription of `toggleFlag` (routes/movies.js lines 261-285).
`idParam` is `Number(req.params.id)` with `none` for a non-finite result;
`desired` is `req.body[flagName]`: `none` when the field is absent
(`undefined`), otherwise the `Boolean(.)` coercion of the present value. -/
def toggleFlag (movies : List Movie) (idParam : Option ℚ) (flagName : FlagName)
    (desired : Option Bool) : ToggleResponse × List Movie :=
  match idParam with
  | none => (.invalidId, movies)
  | some id =>
    match movies.find? (idMatch id) with
    | none => (.notFound, movies)
    | some movie =>
      let mutate : Movie → Movie := fun mv =>
        let mv1 := setFlagField flagName (match desired with
          | some b => b
          | none => true) mv
        let mv2 := if flagName = FlagName.watched && mv1.watched then
            { mv1 with watchlist := false } else mv1
        if flagName = FlagName.watchlist && mv2.watchlist then
          { mv2 with watched := false } else mv2
      (.ok (mutate movie), setFirst (idMatch id) mutate movies)

/-- Value of `req.body.rating` as `PUT /movies/:id/review` examines it: the
handler only tests `=== null`, `=== ""`, and then `Number(.)` together with
finiteness and bounds, so a value is represented by which of these classes it
falls in. `other none` is any value whose `Number(.)` coercion is `NaN` or
infinite (non-numeric strings, `undefined`, objects); `other (some q)` is a
value coercing to the finite number `q` (numbers, numeric strings, booleans). -/
inductive RatingInput
  | jsNull
  | emptyStr
  | other (coerced : Option ℚ)
deriving DecidableEq, Repr

/-- Coercion `req.body.review ? String(req.body.review) : ""` of
routes/movies.js line 302: a falsy body value (absent or empty string)
stores the empty string. -/
def jsReview : Option String → String
  | some s => if s.isEmpty then "" else s
  | none => ""

/-- Responses of `PUT /movies/:id/review`. -/
inductive ReviewResponse
  | invalidId
  | invalidRating
  | notFound
  | ok (movie : Movie)
deriving DecidableEq, Repr

/-- Transcription of `router.put("/:id/review")` (routes/movies.js lines
295-318). `reviewBody` is `req.body.review` (`none` when absent); the code
keeps it only when truthy, else stores `""`. Validation of the rating happens
before the store is read, so an invalid rating leaves the list untouched. -/
def reviewRoute (movies : List Movie) (idParam : Option ℚ) (ratingRaw : RatingInput)
    (reviewBody : Option String) : ReviewResponse × List Movie :=
  match idParam with
  | none => (.invalidId, movies)
  | some id =>
    let review := jsReview reviewBody
    let rating : Option (Option ℚ) := match ratingRaw with
      | .jsNull => some none
      | .emptyStr => some none
      | .other c =>
        match c with
        | none => none
        | some q => if q < 1 || q > 5 then none else some (some q)
    match rating with
    | none => (.invalidRating, movies)
    | some r =>
      match movies.find? (idMatch id) with
      | none => (.notFound, movies)
      | some movie =>
        let mutate : Movie → Movie := fun mv => { mv with rating := r, review := review }
        (.ok (mutate movie), setFirst (idMatch id) mutate movies)

/-- Responses of `DELETE /movies/:id`. -/
inductive DeleteResponse
  | invalidId
  | notFound
  | noContent
deriving DecidableEq, Repr

/-- Transcription of `router.delete("/:id")` (routes/movies.js lines
324-339): filter out the matching records, 404 when the length is unchanged,
otherwise persist the filtered list and answer 204. -/
def deleteMovie (movies : List Movie) (idParam : Option ℚ) : DeleteResponse × List Movie :=
  match idParam with
  | none => (.invalidId, movies)
  | some id =>
    let filtered := movies.filter (fun m => !(idMatch id m))
    if filtered.length = movies.length then (.notFound, movies)
    else (.noContent, filtered)

/-- Body of the generic `PUT /movies/:id`: any subset of the record fields
may be named; an outer `none` means the field is absent from the body and an
outer `some` carries the replacement value. -/
structure UpdateBody where
  id : Option Int
  tmdb_id : Option (Option Int)
  title : Option String
  year : Option (Option String)
  poster_path : Option (Option String)
  overview : Option String
  watched : Option Bool
  watchlist : Option Bool
  liked : Option Bool
  rating : Option (Option ℚ)
  review : Option String
deriving DecidableEq, Repr

/-- JavaScript spread merge `\x7b ...movies[idx], ...updates \x7d`: every
field named in the body overwrites, every other field is kept. -/
def mergeMovie (m : Movie) (u : UpdateBody) : Movie :=
  { id := u.id.getD m.id
    tmdb_id := u.tmdb_id.getD m.tmdb_id
    title := u.title.getD m.title
    year := u.year.getD m.year
    poster_path := u.poster_path.getD m.poster_path
    overview := u.overview.getD m.overview
    watched := u.watched.getD m.watched
    watchlist := u.watchlist.getD m.watchlist
    liked := u.liked.getD m.liked
    rating := u.rating.getD m.rating
    review := u.review.getD m.review }

/-- Responses of the generic `PUT /movies/:id`. -/
inductive UpdateResponse
  | invalidId
  | notFound
  | ok (movie : Movie)
deriving DecidableEq, Repr

/-- Transcription of `router.put("/:id")` (routes/movies.js lines 237-253):
find the record by id, spread-merge the body over it, persist, and return the
merged record. -/
def putMovie (movies : List Movie) (idParam : Option ℚ) (u : UpdateBody) :
    UpdateResponse × List Movie :=
  match idParam with
  | none => (.invalidId, movies)
  | some id =>
    match movies.find? (idMatch id) with
    | none => (.notFound, movies)
    | some m =>
      (.ok (mergeMovie m u), setFirst (idMatch id) (fun m2 => mergeMovie m2 u) movies)

/-- Transcription of the home listing `app.get("/")` (app.js lines 62-74):
`movies.filter((m) => !m.watched)`. -/
def homeMovies (movies : List Movie) : List Movie :=
  movies.filter (fun m => !m.watched)

/-- Transcription of the watched listing `app.get("/watched")`
(app.js lines 79-91): `movies.filter((m) => m.watched)`. -/
def watchedMovies (movies : List Movie) : List Movie :=
  movies.filter (fun m => m.watched)

/-- Environment variables consulted by `getTMDBAuth`: each is absent or a
string (the empty string is falsy in the `if (readToken)` tests). -/
structure Env where
  TMDB_READ_TOKEN : Option String
  TMDB_API_KEY : Option String
deriving DecidableEq, Repr

/-- JavaScript truthiness of a possibly-undefined string: defined and
non-empty yields the string, anything else yields `none`. -/
def truthyStr : Option String → Option String
  | some s => if s.isEmpty then none else some s
  | none => none

/-- Kinds of credentials returned by `getTMDBAuth`. -/
inductive AuthType
  | bearer
  | apikey
deriving DecidableEq, Repr

/-- Credential record `\x7b type, value \x7d` built by `getTMDBAuth`. -/
structure Auth where
  type : AuthType
  value : String
deriving DecidableEq, Repr

/-- Transcription of `getTMDBAuth` (routes/movies.js lines 49-56): prefer
the read token, fall back to the API key, else `null`. -/
def getTMDBAuth (env : Env) : Option Auth :=
  match truthyStr env.TMDB_READ_TOKEN with
  | some t => some { type := .bearer, value := t }
  | none =>
    match truthyStr env.TMDB_API_KEY with
    | some k => some { type := .apikey, value := k }
    | none => none

/-- Outbound HTTP request as `fetch(finalUrl, \x7b headers \x7d)` issues it:
the final URL and the optional Authorization header. -/
structure TmdbRequest where
  url : String
  authHeader : Option String
deriving DecidableEq, Repr

/-- Outcome of one `fetch` call: a network-level rejection of the promise
(DNS failure, connection refused, ...), or an HTTP response with its status,
body text and parsed JSON body of type `α`. `Response.ok` is determined by
the status being in [200, 300). -/
inductive FetchOutcome (α : Type)
  | netError
  | response (status : Int) (body : String) (json : α)
deriving DecidableEq, Repr

/-- Value returned by `tmdbFetchJson` when it does not throw: the
`\x7b ok: false, status, error \x7d` or `\x7b ok: true, status, data \x7d`
object. -/
inductive TmdbResult (α : Type)
  | failure (status : Int) (error : String)
  | success (status : Int) (data : α)
deriving DecidableEq, Repr

/-- Handling of the `fetch` outcome inside `tmdbFetchJson` (routes/movies.js
lines 79-92): a rejected promise propagates as an exception (`.error ()`),
a non-2xx response becomes the failure object carrying `res.status` and the
body text, and a 2xx response becomes the success object with the JSON. -/
def handleFetch {α : Type} : FetchOutcome α → Except Unit (TmdbResult α)
  | .netError => .error ()
  | .response status body json =>
    if 200 ≤ status ∧ status < 300 then .ok (.success status json)
    else .ok (.failure status body)

/-- Transcription of `tmdbFetchJson` (routes/movies.js lines 58-92). The
network is the parameter `net`; with no credentials the function returns the
configuration-failure object without consulting `net` at all; with a bearer
token it sends `url` unchanged plus an Authorization header; with an API key
it appends `api_key` as a query parameter ("&" when the URL already has a
query string, "?" otherwise). -/
def tmdbFetchJson {α : Type} (env : Env) (net : TmdbRequest → FetchOutcome α)
    (url : String) : Except Unit (TmdbResult α) :=
  match getTMDBAuth env with
  | none =>
    .ok (.failure 500 "TMDB credentials missing (set TMDB_READ_TOKEN or TMDB_API_KEY).")
  | some auth =>
    match auth.type with
    | .bearer =>
      handleFetch (net { url := url, authHeader := some ("Bearer " ++ auth.value) })
    | .apikey =>
      let joiner := if jsIncludesChar url '?' then "&" else "?"
      handleFetch (net { url := url ++ joiner ++ "api_key=" ++ auth.value, authHeader := none })

/-- Raw TMDB search result as the search handler reads it. `release_date`
is `none` when absent; the empty string is falsy in the `movie.release_date ?`
test. -/
structure TmdbMovie where
  id : Int
  title : String
  release_date : Option String
  poster_path : Option String
  overview : String
deriving DecidableEq, Repr

/-- Parsed JSON body of a TMDB search response; `results` is `none` when the
field is absent or not an array (the handler checks `Array.isArray`). -/
structure SearchData where
  results : Option (List TmdbMovie)
deriving DecidableEq, Repr

/-- Simplified movie object produced by the search handler. -/
structure SearchItem where
  tmdb_id : Int
  title : String
  year : Option String
  poster_path : Option String
  overview : String
deriving DecidableEq, Repr

/-- Mapping of one raw TMDB result to the simplified object (routes/movies.js
lines 126-132); the year is the leading component of the release date split
on "-", or `null` when the date is absent or empty. -/
def simplifyMovie (movie : TmdbMovie) : SearchItem :=
  { tmdb_id := movie.id
    title := movie.title
    year := match movie.release_date with
      | some d => if d.isEmpty then none else some ((d.splitOn "-").headD "")
      | none => none
    poster_path := movie.poster_path
    overview := movie.overview }

/-- Responses of `GET /movies/search`. -/
inductive SearchResponse
  | badRequest
  | gatewayError (status : Int) (details : String)
  | results (items : List SearchItem)
deriving DecidableEq, Repr

/-- Transcription of `router.get("/search")` (routes/movies.js lines
100-135). `q` is `req.query.q` (`none` when absent); `enc` models the
`encodeURIComponent` builtin. `badRequest` is the 400 "Search query is
required", `gatewayError` the 502 carrying the upstream status and body, and
`results` the 200 JSON array. -/
def searchRoute (env : Env) (net : TmdbRequest → FetchOutcome SearchData)
    (enc : String → String) (q : Option String) : Except Unit SearchResponse :=
  let qt := jsTrim (q.getD "")
  if qt.length < 1 then .ok .badRequest
  else
    let url := "https://api.themoviedb.org/3/search/movie?query=" ++ enc qt ++
      "&include_adult=false&language=en-US&page=1"
    match tmdbFetchJson env net url with
    | .error e => .error e
    | .ok (.failure status error) => .ok (.gatewayError status error)
    | .ok (.success _ data) =>
      let tmdbResults := data.results.getD []
      .ok (.results (tmdbResults.map simplifyMovie))

/-- Crew member inside the TMDB credits object. -/
structure CrewMember where
  job : String
  name : String
deriving DecidableEq, Repr

/-- Cast member inside the TMDB credits object. -/
structure CastMember where
  name : String
deriving DecidableEq, Repr

/-- Credits object of the TMDB detail response; `crew` and `cast` are `none`
when absent (the handler uses optional chaining). -/
structure TmdbCredits where
  crew : Option (List CrewMember)
  cast : Option (List CastMember)
deriving DecidableEq, Repr

/-- Parsed JSON body of a TMDB movie-detail response; `runtime` is `none`
when absent, and `0` is falsy in the `tmdbData.runtime ?` test. -/
structure TmdbDetail where
  credits : Option TmdbCredits
  runtime : Option Int
deriving DecidableEq, Repr

/-- Director extraction (routes/movies.js lines 166-167):
`credits?.crew?.find(job === "Director")?.name || "Unknown"`; an undefined
chain or an empty name falls back to "Unknown". -/
def directorOf (d : TmdbDetail) : String :=
  match (d.credits.bind (fun c => c.crew)).bind
      (fun crew => (crew.find? (fun mem => mem.job == "Director")).map (fun mem => mem.name)) with
  | some s => if s.isEmpty then "Unknown" else s
  | none => "Unknown"

/-- Cast extraction (routes/movies.js lines 169-170):
`credits?.cast?.slice(0, 3).map(name).join(", ") || "Unknown"`; an undefined
chain or an empty joined string falls back to "Unknown". -/
def castOf (d : TmdbDetail) : String :=
  match d.credits.bind (fun c => c.cast) with
  | some l =>
    let s := String.intercalate ", " ((l.take 3).map (fun actor => actor.name))
    if s.isEmpty then "Unknown" else s
  | none => "Unknown"

/-- Runtime extraction (routes/movies.js line 172):
`tmdbData.runtime ? runtime + " minutes" : "Unknown"`. -/
def runtimeOf (d : TmdbDetail) : String :=
  match d.runtime with
  | some n => if n != 0 then toString n ++ " minutes" else "Unknown"
  | none => "Unknown"

/-- Movie object handed to the detail template after enrichment: the stored
record plus the three fields the handler writes onto it. -/
structure EnrichedMovie where
  base : Movie
  director : String
  cast : String
  runtime : String
deriving DecidableEq, Repr

/-- Enrichment applied by `GET /movies/:id` on upstream success: the stored
record plus the three extracted fields. -/
def enrichedPage (movie : Movie) (d : TmdbDetail) : EnrichedMovie :=
  { base := movie, director := directorOf d, cast := castOf d, runtime := runtimeOf d }

/-- Degraded detail page: the stored record with the three "Unknown"
placeholders. -/
def unknownPage (movie : Movie) : EnrichedMovie :=
  { base := movie, director := "Unknown", cast := "Unknown", runtime := "Unknown" }

/-- Responses of `GET /movies/:id` (the detail page). -/
inductive DetailResponse
  | invalidId
  | notFound
  | page (movie : EnrichedMovie)
deriving DecidableEq, Repr

/-- Transcription of `router.get("/:id")` (routes/movies.js lines 142-186).
A TMDB lookup happens only when the stored `tmdb_id` is truthy; an `ok`
upstream response fills director/cast/runtime from the JSON, a returned
failure object degrades all three to "Unknown", and a thrown `fetch`
rejection propagates out of the handler (`.error ()`). -/
def movieDetailRoute (env : Env) (net : TmdbRequest → FetchOutcome TmdbDetail)
    (movies : List Movie) (idParam : Option ℚ) : Except Unit DetailResponse :=
  match idParam with
  | none => .ok .invalidId
  | some movieId =>
    match movies.find? (idMatch movieId) with
    | none => .ok .notFound
    | some movie =>
      if optIntTruthy movie.tmdb_id then
        let url := "https://api.themoviedb.org/3/movie/" ++ jsStr movie.tmdb_id ++
          "?append_to_response=credits&language=en-US"
        match tmdbFetchJson env net url with
        | .error e => .error e
        | .ok (.failure _ _) =>
          .ok (.page (unknownPage movie))
        | .ok (.success _ d) =>
          .ok (.page (enrichedPage movie d))
      else
        .ok (.page (unknownPage movie))

/-! Concrete sample data for the closed witnesses and counterexamples. -/

/-- Sample stored record. -/
def inception : Movie :=
  { id := 1, tmdb_id := some 27205, title := "Inception", year := some "2010",
    poster_path := some "/ince.jpg", overview := "A thief enters dreams.",
    watched := false, watchlist := true, liked := false, rating := none, review := "" }

/-- Sample stored record with a different id and external id. -/
def dune : Movie :=
  { id := 4, tmdb_id := some 438631, title := "Dune", year := some "2021",
    poster_path := none, overview := "", watched := true, watchlist := false,
    liked := true, rating := some 4, review := "Stunning." }

/-! Helper lemmas about the fold computing the maximal id. -/

/-- Initial accumulator is below a fold of `max`. -/
theorem le_foldl_max (l : List Int) (a : Int) : a ≤ l.foldl max a := by
  induction l generalizing a with
  | nil => exact le_refl a
  | cons x l ih => exact le_trans (le_max_left a x) (ih (max a x))

/-- Every list element is below a fold of `max`. -/
theorem mem_le_foldl_max (l : List Int) (a : Int) : ∀ x ∈ l, x ≤ l.foldl max a := by
  induction l generalizing a with
  | nil => intro x hx; cases hx
  | cons y l ih =>
    intro x hx
    rcases List.mem_cons.mp hx with h | h
    · subst h
      exact le_trans (le_max_right a x) (le_foldl_max l (max a x))
    · exact ih (max a y) x h

/-- A fold of `max` is the accumulator or an element of the list. -/
theorem foldl_max_choice (l : List Int) (a : Int) :
    l.foldl max a = a ∨ l.foldl max a ∈ l := by
  induction l generalizing a with
  | nil => exact Or.inl rfl
  | cons x l ih =>
    rcases ih (max a x) with h | h
    · rcases max_choice a x with h2 | h2
      · exact Or.inl (by rw [List.foldl_cons, h, h2])
      · exact Or.inr (by rw [List.foldl_cons, h, h2]; exact List.mem_cons_self x l)
    · exact Or.inr (List.mem_cons_of_mem x h)

/-- Shape of a successful `postMovie`: the response carries the freshly built
record and the persisted list appends it. -/
theorem postMovie_created (movies : List Movie) (body : PostBody) (nm : Movie)
    (h : (postMovie movies body).fst = .created nm) :
    nm = { id := nextId movies
           tmdb_id := if optIntTruthy body.tmdb_id then body.tmdb_id else none
           title := jsTrim (body.title.getD "")
           year := match body.year with
             | some s => if s.isEmpty then none else some (jsTrim s)
             | none => none
           poster_path := body.poster_path
           overview := match body.overview with
             | some s => if s.isEmpty then "" else s
             | none => ""
           watched := false
           watchlist := true
           liked := false
           rating := none
           review := "" } ∧
    (postMovie movies body).snd = movies ++ [nm] := by
  simp only [postMovie] at h ⊢
  by_cases h1 : (jsTrim (body.title.getD "")).isEmpty = true
  · rw [if_pos h1] at h
    exact absurd h (by simp)
  · rw [if_neg h1] at h ⊢
    by_cases h2 : (optIntTruthy body.tmdb_id &&
        movies.any (fun m => jsStr m.tmdb_id == jsStr body.tmdb_id)) = true
    · rw [if_pos h2] at h
      exact absurd h (by simp)
    · rw [if_neg h2] at h ⊢
      cases h
      exact ⟨rfl, rfl⟩

/-- C10: every record created by a successful `POST /movies` starts with
watched = false, watchlist = true, liked = false, no rating and an empty
review, whatever the request body; it therefore appears on the home
(unwatched) listing computed from the persisted state and not on the watched
listing. -/
theorem c10_created_record_initial_state (movies : List Movie) (body : PostBody)
    (nm : Movie) (h : (postMovie movies body).fst = .created nm) :
    nm.watched = false ∧ nm.watchlist = true ∧ nm.liked = false ∧
    nm.rating = none ∧ nm.review = "" ∧
    nm ∈ homeMovies (postMovie movies body).snd ∧
    nm ∉ watchedMovies (postMovie movies body).snd := by
  obtain ⟨hnm, hsnd⟩ := postMovie_created movies body nm h
  have hw : nm.watched = false := by rw [hnm]
  refine ⟨hw, by rw [hnm], by rw [hnm], by rw [hnm], by rw [hnm], ?_, ?_⟩
  · rw [hsnd]
    simp [homeMovies, List.mem_filter, hw]
  · rw [hsnd]
    simp [watchedMovies, List.mem_filter, hw]

/-- Body of a sample add request. -/
def postedDune : PostBody :=
  { tmdb_id := some 438631, title := some "Dune", year := some "2021",
    poster_path := none, overview := some "Desert planet." }

/-- Record that `postMovie [inception] postedDune` creates. -/
def duneRecord : Movie :=
  { id := 2, tmdb_id := some 438631, title := "Dune", year := some "2021",
    poster_path := none, overview := "Desert planet.", watched := false,
    watchlist := true, liked := false, rating := none, review := "" }

/-- C10 witness: the concrete add of `postedDune` over `[inception]`. -/
theorem c10_created_record_initial_state_witness :
    duneRecord.watched = false ∧ duneRecord.watchlist = true ∧ duneRecord.liked = false ∧
    duneRecord.rating = none ∧ duneRecord.review = "" ∧
    duneRecord ∈ homeMovies (postMovie [inception] postedDune).snd ∧
    duneRecord ∉ watchedMovies (postMovie [inception] postedDune).snd :=
  c10_created_record_initial_state [inception] postedDune duneRecord (by decide)

/-- C4: a successful `POST /movies` assigns the new record the id
`nextId movies`; this id is 1 on an empty collection, equals the maximal
stored id plus one on a non-empty collection of non-negatively numbered
records, and differs from every stored id. -/
theorem c4_assigned_id (movies : List Movie) (body : PostBody) (nm : Movie)
    (h : (postMovie movies body).fst = .created nm) :
    nm.id = nextId movies ∧
    (movies = [] → nm.id = 1) ∧
    (movies ≠ [] → (∀ m ∈ movies, 0 ≤ m.id) →
      ∃ m ∈ movies, nm.id = m.id + 1 ∧ ∀ m2 ∈ movies, m2.id ≤ m.id) ∧
    (∀ m ∈ movies, nm.id ≠ m.id) := by
  obtain ⟨hnm, -⟩ := postMovie_created movies body nm h
  have hid : nm.id = nextId movies := by rw [hnm]
  have hmap : movies.foldl (fun mx m => max mx m.id) 0 = (movies.map Movie.id).foldl max 0 := by
    rw [List.foldl_map]
  refine ⟨hid, ?_, ?_, ?_⟩
  · intro he
    subst he
    rw [hid]
    rfl
  · intro hne hpos
    rcases foldl_max_choice (movies.map Movie.id) 0 with hc | hc
    · obtain ⟨m0, hm0⟩ := List.exists_mem_of_ne_nil movies hne
      have hle : m0.id ≤ 0 := by
        have hx := mem_le_foldl_max (movies.map Movie.id) 0 m0.id
          (List.mem_map_of_mem Movie.id hm0)
        rwa [hc] at hx
      have h0 : m0.id = 0 := le_antisymm hle (hpos m0 hm0)
      refine ⟨m0, hm0, ?_, ?_⟩
      · rw [hid, nextId, hmap, hc, h0]
      · intro m2 hm2
        have hx := mem_le_foldl_max (movies.map Movie.id) 0 m2.id
          (List.mem_map_of_mem Movie.id hm2)
        rw [hc] at hx
        rw [h0]
        exact hx
    · obtain ⟨m, hm, hmid⟩ := List.mem_map.mp hc
      refine ⟨m, hm, ?_, ?_⟩
      · rw [hid, nextId, hmap, ← hmid]
      · intro m2 hm2
        have hx := mem_le_foldl_max (movies.map Movie.id) 0 m2.id
          (List.mem_map_of_mem Movie.id hm2)
        rw [hmid]
        exact hx
  · intro m hm
    have hle : m.id ≤ (movies.map Movie.id).foldl max 0 :=
      mem_le_foldl_max (movies.map Movie.id) 0 m.id (List.mem_map_of_mem Movie.id hm)
    rw [hid, nextId, hmap]
    omega

/-- C4 witness: adding `postedDune` over `[inception]` assigns id 2, one more
than the prior maximum 1, and distinct from the stored id. -/
theorem c4_assigned_id_witness :
    (postMovie [inception] postedDune).fst = .created duneRecord ∧
    duneRecord.id = nextId [inception] ∧ duneRecord.id ≠ inception.id :=
  ⟨by decide,
   (c4_assigned_id [inception] postedDune duneRecord (by decide)).1,
   (c4_assigned_id [inception] postedDune duneRecord (by decide)).2.2.2 inception (by decide)⟩

/-- Stored record whose external id is the number 0. -/
def zeroTmdb : Movie := { inception with tmdb_id := some 0 }

/-- Add request whose tmdb_id is the number 0: present and non-null, yet
falsy, so the duplicate check is skipped. -/
def zeroBody : PostBody :=
  { tmdb_id := some 0, title := some "Zero", year := none,
    poster_path := none, overview := none }

/-- Add request with a duplicate truthy tmdb_id but a whitespace-only
title. -/
def blankTitleDupBody : PostBody :=
  { tmdb_id := some 27205, title := some "   ", year := none,
    poster_path := none, overview := none }

/-- C5 counterexample: with a stored record of tmdb_id 0, an add request
carrying the present, non-null tmdb_id 0 is not answered with a conflict and
the stored collection changes (the `if (tmdb_id)` truthiness test skips the
duplicate check for 0); moreover a request with a duplicate truthy tmdb_id
but an empty title is answered with the title validation error, not a
conflict. -/
theorem c5_counterexample :
    ((postMovie [zeroTmdb] zeroBody).fst ≠ .conflict ∧
      (postMovie [zeroTmdb] zeroBody).snd ≠ [zeroTmdb]) ∧
    ((postMovie [inception] blankTitleDupBody).fst = .titleRequired ∧
      (postMovie [inception] blankTitleDupBody).fst ≠ .conflict) := by
  decide

/-- C5 amended: when the draft's trimmed title is non-empty and its tmdb_id
is truthy (non-null and non-zero) and equal as a string to some stored
record's tmdb_id, `POST /movies` answers 409 and the collection is
unchanged. -/
theorem c5_duplicate_tmdb_conflict (movies : List Movie) (body : PostBody)
    (ht : (jsTrim (body.title.getD "")).isEmpty = false)
    (htr : optIntTruthy body.tmdb_id = true)
    (hdup : ∃ m ∈ movies, jsStr m.tmdb_id = jsStr body.tmdb_id) :
    postMovie movies body = (.conflict, movies) := by
  simp only [postMovie]
  rw [if_neg (by simp [ht])]
  have hany : movies.any (fun m => jsStr m.tmdb_id == jsStr body.tmdb_id) = true := by
    rw [List.any_eq_true]
    obtain ⟨m, hm, he⟩ := hdup
    exact ⟨m, hm, beq_iff_eq.mpr he⟩
  rw [if_pos (by rw [htr, hany]; rfl)]

/-- Add request duplicating the stored `inception` external id. -/
def dupBody : PostBody :=
  { tmdb_id := some 27205, title := some "Inception again", year := none,
    poster_path := none, overview := none }

/-- C5 witness: the concrete duplicate add over `[inception]`. -/
theorem c5_duplicate_tmdb_conflict_witness :
    postMovie [inception] dupBody = (.conflict, [inception]) :=
  c5_duplicate_tmdb_conflict [inception] dupBody (by decide) (by decide)
    ⟨inception, by decide, by decide⟩

/-- Read access `movie[flagName]` for the three boolean flags. -/
def flagValue : FlagName → Movie → Bool
  | .watched, m => m.watched
  | .watchlist, m => m.watchlist
  | .liked, m => m.liked

/-- C3: on an existing record, setting watched to true also forces watchlist
to false; setting watchlist to true also forces watched to false; setting
liked changes neither of the other flags; and when the request body has no
value for the named flag it is set to true. -/
theorem c3_toggle_flags (movies : List Movie) (id : ℚ) (movie : Movie)
    (hfind : movies.find? (idMatch id) = some movie) :
    (∀ mv, (toggleFlag movies (some id) .watched (some true)).fst = .ok mv →
      mv.watched = true ∧ mv.watchlist = false) ∧
    (∀ mv, (toggleFlag movies (some id) .watchlist (some true)).fst = .ok mv →
      mv.watchlist = true ∧ mv.watched = false) ∧
    (∀ b mv, (toggleFlag movies (some id) .liked (some b)).fst = .ok mv →
      mv.liked = b ∧ mv.watched = movie.watched ∧ mv.watchlist = movie.watchlist) ∧
    (∀ fn, ∃ mv, (toggleFlag movies (some id) fn none).fst = .ok mv ∧
      flagValue fn mv = true) := by
  have hW : (toggleFlag movies (some id) .watched (some true)).fst
      = .ok { movie with watched := true, watchlist := false } := by
    simp only [toggleFlag]
    rw [hfind]
    simp [setFlagField]
  have hL : (toggleFlag movies (some id) .watchlist (some true)).fst
      = .ok { movie with watchlist := true, watched := false } := by
    simp only [toggleFlag]
    rw [hfind]
    simp [setFlagField]
  have hK : ∀ b, (toggleFlag movies (some id) .liked (some b)).fst
      = .ok { movie with liked := b } := by
    intro b
    simp only [toggleFlag]
    rw [hfind]
    simp [setFlagField]
  have hWn : (toggleFlag movies (some id) .watched none).fst
      = .ok { movie with watched := true, watchlist := false } := by
    simp only [toggleFlag]
    rw [hfind]
    simp [setFlagField]
  have hLn : (toggleFlag movies (some id) .watchlist none).fst
      = .ok { movie with watchlist := true, watched := false } := by
    simp only [toggleFlag]
    rw [hfind]
    simp [setFlagField]
  have hKn : (toggleFlag movies (some id) .liked none).fst
      = .ok { movie with liked := true } := by
    simp only [toggleFlag]
    rw [hfind]
    simp [setFlagField]
  refine ⟨?_, ?_, ?_, ?_⟩
  · intro mv h
    rw [hW] at h
    cases h
    exact ⟨rfl, rfl⟩
  · intro mv h
    rw [hL] at h
    cases h
    exact ⟨rfl, rfl⟩
  · intro b mv h
    rw [hK b] at h
    cases h
    exact ⟨rfl, rfl, rfl⟩
  · intro fn
    cases fn with
    | watched => exact ⟨_, hWn, rfl⟩
    | watchlist => exact ⟨_, hLn, rfl⟩
    | liked => exact ⟨_, hKn, rfl⟩

/-- C3 witness: toggling watched on the stored `inception` record. -/
theorem c3_toggle_flags_witness :
    (toggleFlag [inception, dune] (some 1) FlagName.watched (some true)).fst
      = .ok { inception with watched := true, watchlist := false } ∧
    ({ inception with watched := true, watchlist := false } : Movie).watchlist = false :=
  ⟨by decide,
   ((c3_toggle_flags [inception, dune] 1 inception (by decide)).1
     { inception with watched := true, watchlist := false } (by decide)).2⟩

/-- C1 counterexample: the non-integer rating 5/2 = 2.5 is accepted by
`PUT /movies/:id/review` — the stored rating and review are overwritten and
no validation error is returned, although the claim demands a 400 for every
non-integer rating. -/
theorem c1_counterexample :
    (reviewRoute [inception] (some 1) (.other (some (mkRat 5 2))) (some "Great")).fst
      = .ok { inception with rating := some (mkRat 5 2), review := "Great" } ∧
    (reviewRoute [inception] (some 1) (.other (some (mkRat 5 2))) (some "Great")).snd
      = [{ inception with rating := some (mkRat 5 2), review := "Great" }] ∧
    (reviewRoute [inception] (some 1) (.other (some (mkRat 5 2))) (some "Great")).fst
      ≠ .invalidRating := by
  decide

/-- C1 amended: a rating whose `Number` coercion is `NaN` or a finite number
outside [1, 5] is rejected with the 400 validation error and the stored list
is untouched; a `null` or empty rating, or any finite number inside [1, 5]
(integral or not), is accepted on an existing record and both rating and
review are overwritten unconditionally. -/
theorem c1_review_rating (movies : List Movie) (id : ℚ) (rb : Option String) :
    (∀ q, (q < 1 ∨ 5 < q) →
      reviewRoute movies (some id) (.other (some q)) rb = (.invalidRating, movies)) ∧
    (reviewRoute movies (some id) (.other none) rb = (.invalidRating, movies)) ∧
    (∀ movie, movies.find? (idMatch id) = some movie →
      (∀ q, 1 ≤ q → q ≤ 5 →
        (reviewRoute movies (some id) (.other (some q)) rb).fst
          = .ok { movie with rating := some q, review := jsReview rb } ∧
        (reviewRoute movies (some id) (.other (some q)) rb).snd
          = setFirst (idMatch id)
              (fun mv => { mv with rating := some q, review := jsReview rb }) movies) ∧
      ((reviewRoute movies (some id) .jsNull rb).fst
          = .ok { movie with rating := none, review := jsReview rb } ∧
        (reviewRoute movies (some id) .jsNull rb).snd
          = setFirst (idMatch id)
              (fun mv => { mv with rating := none, review := jsReview rb }) movies) ∧
      ((reviewRoute movies (some id) .emptyStr rb).fst
          = .ok { movie with rating := none, review := jsReview rb } ∧
        (reviewRoute movies (some id) .emptyStr rb).snd
          = setFirst (idMatch id)
              (fun mv => { mv with rating := none, review := jsReview rb }) movies)) := by
  refine ⟨?_, ?_, ?_⟩
  · intro q hq
    have hb : (decide (q < 1) || decide (q > 5)) = true := by
      rcases hq with h | h
      · simp [h]
      · simp [h]
    simp [reviewRoute, hb]
  · simp [reviewRoute]
  · intro movie hfind
    refine ⟨?_, ?_, ?_⟩
    · intro q h1 h5
      have hb : (decide (q < 1) || decide (q > 5)) = false := by
        simp [not_lt.mpr h1, not_lt.mpr h5]
      constructor
      · simp only [reviewRoute, hb]
        rw [hfind]
        simp
      · simp only [reviewRoute, hb]
        rw [hfind]
        simp
    · constructor
      · simp only [reviewRoute]
        rw [hfind]
      · simp only [reviewRoute]
        rw [hfind]
    · constructor
      · simp only [reviewRoute]
        rw [hfind]
      · simp only [reviewRoute]
        rw [hfind]

/-- C1 witness: an in-range rating of 3 on the stored `inception` record. -/
theorem c1_review_rating_witness :
    (reviewRoute [inception] (some 1) (.other (some 3)) (some "Nice")).fst
      = .ok { inception with rating := some 3, review := "Nice" } :=
  (((c1_review_rating [inception] 1 (some "Nice")).2.2 inception (by decide)).1
    3 (by decide) (by decide)).1

/-- C6: deleting a numeric id that matches no stored record answers 404 and
leaves the collection unchanged; deleting a matching id answers 204, the
persisted list is the filter dropping the matching records, it is a sublist
of the original (order preserved), every non-matching record survives, and no
matching record survives. -/
theorem c6_delete_by_id (movies : List Movie) (id : ℚ) :
    ((∀ m ∈ movies, (m.id : ℚ) ≠ id) →
      deleteMovie movies (some id) = (.notFound, movies)) ∧
    ((∃ m ∈ movies, (m.id : ℚ) = id) →
      (deleteMovie movies (some id)).fst = .noContent ∧
      (deleteMovie movies (some id)).snd = movies.filter (fun m => !(idMatch id m)) ∧
      ((deleteMovie movies (some id)).snd).Sublist movies ∧
      (∀ m ∈ movies, (m.id : ℚ) ≠ id → m ∈ (deleteMovie movies (some id)).snd) ∧
      (∀ m ∈ (deleteMovie movies (some id)).snd, (m.id : ℚ) ≠ id)) := by
  constructor
  · intro hall
    have hlen : (movies.filter (fun m => !(idMatch id m))).length = movies.length := by
      rw [List.filter_length_eq_length]
      intro m hm
      simp [idMatch, hall m hm]
    simp only [deleteMovie]
    rw [if_pos hlen]
  · intro hex
    obtain ⟨m0, hm0, hid0⟩ := hex
    have hlen : ¬ (movies.filter (fun m => !(idMatch id m))).length = movies.length := by
      intro heq
      have hp := List.filter_length_eq_length.mp heq m0 hm0
      simp [idMatch, hid0] at hp
    have hres : deleteMovie movies (some id)
        = (.noContent, movies.filter (fun m => !(idMatch id m))) := by
      simp only [deleteMovie]
      rw [if_neg hlen]
    refine ⟨by rw [hres], by rw [hres], ?_, ?_, ?_⟩
    · rw [hres]
      exact List.filter_sublist movies
    · intro m hm hne
      rw [hres]
      refine List.mem_filter.mpr ⟨hm, ?_⟩
      simp [idMatch, hne]
    · intro m hm
      rw [hres] at hm
      have hq := (List.mem_filter.mp hm).2
      simp [idMatch] at hq
      exact hq

/-- C6 witness: deleting id 4 from the two stored records removes `dune` and
keeps `inception`. -/
theorem c6_delete_by_id_witness :
    (deleteMovie [inception, dune] (some 4)).fst = .noContent ∧
    (deleteMovie [inception, dune] (some 4)).snd = [inception] :=
  ⟨((c6_delete_by_id [inception, dune] 4).2 ⟨dune, by decide, by decide⟩).1, by decide⟩

/-- C8: the generic `PUT /movies/:id` is a shallow merge — on an existing
record the response carries the merge and the persisted list replaces the
first matching record by the merge; every field named in the body (the id
and tmdb_id included, unvalidated) takes the body's value and every field
absent from the body is unchanged; an absent id answers 404 with the list
untouched. -/
theorem c8_generic_update (movies : List Movie) (id : ℚ) (u : UpdateBody) :
    (movies.find? (idMatch id) = none → putMovie movies (some id) u = (.notFound, movies)) ∧
    (∀ m, movies.find? (idMatch id) = some m →
      (putMovie movies (some id) u).fst = .ok (mergeMovie m u) ∧
      (putMovie movies (some id) u).snd
        = setFirst (idMatch id) (fun m2 => mergeMovie m2 u) movies) ∧
    (∀ m : Movie,
      (∀ v, u.id = some v → (mergeMovie m u).id = v) ∧
      (u.id = none → (mergeMovie m u).id = m.id) ∧
      (∀ v, u.tmdb_id = some v → (mergeMovie m u).tmdb_id = v) ∧
      (u.tmdb_id = none → (mergeMovie m u).tmdb_id = m.tmdb_id) ∧
      (∀ v, u.title = some v → (mergeMovie m u).title = v) ∧
      (u.title = none → (mergeMovie m u).title = m.title) ∧
      (∀ v, u.year = some v → (mergeMovie m u).year = v) ∧
      (u.year = none → (mergeMovie m u).year = m.year) ∧
      (∀ v, u.poster_path = some v → (mergeMovie m u).poster_path = v) ∧
      (u.poster_path = none → (mergeMovie m u).poster_path = m.poster_path) ∧
      (∀ v, u.overview = some v → (mergeMovie m u).overview = v) ∧
      (u.overview = none → (mergeMovie m u).overview = m.overview) ∧
      (∀ v, u.watched = some v → (mergeMovie m u).watched = v) ∧
      (u.watched = none → (mergeMovie m u).watched = m.watched) ∧
      (∀ v, u.watchlist = some v → (mergeMovie m u).watchlist = v) ∧
      (u.watchlist = none → (mergeMovie m u).watchlist = m.watchlist) ∧
      (∀ v, u.liked = some v → (mergeMovie m u).liked = v) ∧
      (u.liked = none → (mergeMovie m u).liked = m.liked) ∧
      (∀ v, u.rating = some v → (mergeMovie m u).rating = v) ∧
      (u.rating = none → (mergeMovie m u).rating = m.rating) ∧
      (∀ v, u.review = some v → (mergeMovie m u).review = v) ∧
      (u.review = none → (mergeMovie m u).review = m.review)) := by
  refine ⟨?_, ?_, ?_⟩
  · intro hfind
    simp only [putMovie]
    rw [hfind]
  · intro m hfind
    constructor
    · simp only [putMovie]
      rw [hfind]
    · simp only [putMovie]
      rw [hfind]
  · intro m
    refine ⟨?_, ?_, ?_, ?_, ?_, ?_, ?_, ?_, ?_, ?_, ?_, ?_, ?_, ?_, ?_, ?_, ?_, ?_,
      ?_, ?_, ?_, ?_⟩
    all_goals intros
    all_goals simp_all [mergeMovie]

/-- Update body that overwrites the record's own id, a field the endpoint
does not protect. -/
def hijackBody : UpdateBody :=
  { id := some 99, tmdb_id := some none, title := none, year := none,
    poster_path := none, overview := none, watched := none, watchlist := none,
    liked := none, rating := none, review := none }

/-- C8 witness: merging `hijackBody` into the stored `inception` record
overwrites id and tmdb_id and keeps the title. -/
theorem c8_generic_update_witness :
    (putMovie [inception, dune] (some 1) hijackBody).fst
      = .ok (mergeMovie inception hijackBody) ∧
    (mergeMovie inception hijackBody).id = 99 ∧
    (mergeMovie inception hijackBody).title = inception.title :=
  ⟨((c8_generic_update [inception, dune] 1 hijackBody).2.1 inception (by decide)).1,
   ((c8_generic_update [inception, dune] 1 hijackBody).2.2 inception).1 99 (by decide),
   ((c8_generic_update [inception, dune] 1 hijackBody).2.2 inception).2.2.2.2.2.1
     (by decide)⟩

/-- C9: credential resolution of the TMDB client — with no configured
credential every call returns the configuration failure at once and the
result does not depend on the network at all; with a bearer token configured
the request goes out with the Authorization header and an unchanged URL,
an API key notwithstanding; with only an API key the key is appended to the
URL as a query parameter and no header is sent. -/
theorem c9_credential_resolution {α : Type} (env : Env) (url : String)
    (net : TmdbRequest → FetchOutcome α) :
    (truthyStr env.TMDB_READ_TOKEN = none → truthyStr env.TMDB_API_KEY = none →
      tmdbFetchJson env net url
        = .ok (.failure 500
            "TMDB credentials missing (set TMDB_READ_TOKEN or TMDB_API_KEY).") ∧
      ∀ net2 : TmdbRequest → FetchOutcome α,
        tmdbFetchJson env net url = tmdbFetchJson env net2 url) ∧
    (∀ t, truthyStr env.TMDB_READ_TOKEN = some t →
      tmdbFetchJson env net url
        = handleFetch (net { url := url, authHeader := some ("Bearer " ++ t) })) ∧
    (∀ k, truthyStr env.TMDB_READ_TOKEN = none → truthyStr env.TMDB_API_KEY = some k →
      tmdbFetchJson env net url
        = handleFetch (net { url := url ++ (if jsIncludesChar url '?' then "&" else "?")
            ++ "api_key=" ++ k, authHeader := none })) := by
  refine ⟨?_, ?_, ?_⟩
  · intro h1 h2
    have hauth : getTMDBAuth env = none := by
      simp [getTMDBAuth, h1, h2]
    constructor
    · simp [tmdbFetchJson, hauth]
    · intro net2
      simp [tmdbFetchJson, hauth]
  · intro t ht
    have hauth : getTMDBAuth env = some { type := .bearer, value := t } := by
      simp [getTMDBAuth, ht]
    simp [tmdbFetchJson, hauth]
  · intro k h1 h2
    have hauth : getTMDBAuth env = some { type := .apikey, value := k } := by
      simp [getTMDBAuth, h1, h2]
    simp [tmdbFetchJson, hauth]

/-- Environment with no TMDB credential configured. -/
def noCredsEnv : Env := { TMDB_READ_TOKEN := none, TMDB_API_KEY := none }

/-- Environment with both credential forms configured. -/
def bothEnv : Env := { TMDB_READ_TOKEN := some "tok", TMDB_API_KEY := some "key" }

/-- Network that rejects every request at the transport level. -/
def downNet : TmdbRequest → FetchOutcome SearchData :=
  fun _ => .netError

/-- C9 witness: without credentials the client reports the configuration
failure even over a dead network; with both credentials configured the
bearer token wins. -/
theorem c9_credential_resolution_witness :
    tmdbFetchJson noCredsEnv downNet "u"
      = .ok (.failure 500
          "TMDB credentials missing (set TMDB_READ_TOKEN or TMDB_API_KEY).") ∧
    tmdbFetchJson bothEnv downNet "u"
      = handleFetch (downNet { url := "u", authHeader := some ("Bearer " ++ "tok") }) :=
  ⟨((c9_credential_resolution noCredsEnv "u" downNet).1 (by decide) (by decide)).1,
   (c9_credential_resolution bothEnv "u" downNet).2.1 "tok" (by decide)⟩

/-- With some credential configured, `tmdbFetchJson` hands the network's
outcome to `handleFetch`, whichever credential branch was taken, as long as
the network answers every request alike. -/
theorem tmdbFetchJson_const {α : Type} (env : Env) (net : TmdbRequest → FetchOutcome α)
    (url : String) (o : FetchOutcome α) (hnet : ∀ r, net r = o)
    (hauth : getTMDBAuth env ≠ none) :
    tmdbFetchJson env net url = handleFetch o := by
  rcases hA : getTMDBAuth env with _ | a
  · exact absurd hA hauth
  · rcases a with ⟨ty, v⟩
    cases ty
    · simp [tmdbFetchJson, hA, hnet]
    · simp [tmdbFetchJson, hA, hnet]

/-- C7 counterexample: with credentials configured and a non-blank query, a
network-level rejection of the outbound search request propagates out of the
handler as an exception — no response of any kind, in particular no 502
gateway error, is produced — although the claim demands a 502 for every
failed remote call. -/
theorem c7_counterexample :
    searchRoute bothEnv downNet (fun s => s) (some "batman") = .error () ∧
    (searchRoute bothEnv downNet (fun s => s) (some "batman")).toOption = none := by
  have h1 : searchRoute bothEnv downNet (fun s => s) (some "batman") = .error () := rfl
  exact ⟨h1, by rw [h1]; rfl⟩

/-- C7 amended: a blank search query is answered 400 regardless of
environment and network (no remote contact); with credentials configured and
a non-blank query, a 2xx upstream answer with zero matches yields the empty
JSON array (not an error), and an upstream answer with a non-2xx status
yields the 502 gateway error carrying the upstream status and body, a
response distinct from the empty result list; but a network-level rejection
of the outbound request propagates as an exception instead of producing the
502. -/
theorem c7_search (env : Env) (net : TmdbRequest → FetchOutcome SearchData)
    (enc : String → String) (q : Option String) :
    ((jsTrim (q.getD "")).length < 1 →
      searchRoute env net enc q = .ok .badRequest ∧
      ∀ (env2 : Env) (net2 : TmdbRequest → FetchOutcome SearchData),
        searchRoute env2 net2 enc q = .ok .badRequest) ∧
    (∀ s b d, (∀ r, net r = .response s b d) → 200 ≤ s → s < 300 →
      d.results = some [] →
      1 ≤ (jsTrim (q.getD "")).length → getTMDBAuth env ≠ none →
      searchRoute env net enc q = .ok (.results [])) ∧
    (∀ s b d, (∀ r, net r = .response s b d) → ¬(200 ≤ s ∧ s < 300) →
      1 ≤ (jsTrim (q.getD "")).length → getTMDBAuth env ≠ none →
      searchRoute env net enc q = .ok (.gatewayError s b) ∧
      SearchResponse.gatewayError s b ≠ .results []) ∧
    ((∀ r, net r = .netError) →
      1 ≤ (jsTrim (q.getD "")).length → getTMDBAuth env ≠ none →
      searchRoute env net enc q = .error ()) := by
  refine ⟨?_, ?_, ?_, ?_⟩
  · intro hq
    constructor
    · simp only [searchRoute]
      rw [if_pos hq]
    · intro env2 net2
      simp only [searchRoute]
      rw [if_pos hq]
  · intro s b d hnet hs1 hs2 hres hq hauth
    have hn : ¬ ((jsTrim (q.getD "")).length < 1) := by omega
    simp only [searchRoute]
    rw [if_neg hn, tmdbFetchJson_const env net _ _ hnet hauth]
    simp [handleFetch, hs1, hs2, hres]
  · intro s b d hnet hbad hq hauth
    have hn : ¬ ((jsTrim (q.getD "")).length < 1) := by omega
    constructor
    · simp only [searchRoute]
      rw [if_neg hn, tmdbFetchJson_const env net _ _ hnet hauth]
      simp [handleFetch, hbad]
    · intro h
      exact SearchResponse.noConfusion h
  · intro hnet hq hauth
    have hn : ¬ ((jsTrim (q.getD "")).length < 1) := by omega
    simp only [searchRoute]
    rw [if_neg hn, tmdbFetchJson_const env net _ _ hnet hauth]
    simp [handleFetch]

/-- Network whose every answer is a 2xx with zero search matches. -/
def emptyHitsNet : TmdbRequest → FetchOutcome SearchData :=
  fun _ => .response 200 "" { results := some [] }

/-- Network whose every answer is an upstream 404. -/
def failingNet : TmdbRequest → FetchOutcome SearchData :=
  fun _ => .response 404 "not found" { results := none }

/-- C7 witness: the blank-query, zero-match, upstream-failure and
network-rejection cases at concrete inputs. -/
theorem c7_search_witness :
    searchRoute noCredsEnv downNet (fun s => s) (some "  ") = .ok .badRequest ∧
    searchRoute bothEnv emptyHitsNet (fun s => s) (some "batman") = .ok (.results []) ∧
    searchRoute bothEnv failingNet (fun s => s) (some "batman")
      = .ok (.gatewayError 404 "not found") ∧
    searchRoute bothEnv downNet (fun s => s) (some "tron") = .error () :=
  ⟨((c7_search noCredsEnv downNet (fun s => s) (some "  ")).1 (by decide)).1,
   (c7_search bothEnv emptyHitsNet (fun s => s) (some "batman")).2.1 200 "" _
     (fun _ => rfl) (by decide) (by decide) rfl (by decide) (by decide),
   ((c7_search bothEnv failingNet (fun s => s) (some "batman")).2.2.1 404 "not found" _
     (fun _ => rfl) (by decide) (by decide) (by decide)).1,
   (c7_search bothEnv downNet (fun s => s) (some "tron")).2.2.2
     (fun _ => rfl) (by decide) (by decide)⟩

/-- Network for the detail lookup that rejects every request at the
transport level. -/
def detailDownNet : TmdbRequest → FetchOutcome TmdbDetail :=
  fun _ => .netError

/-- Network for the detail lookup whose every answer is an upstream 404. -/
def detail404Net : TmdbRequest → FetchOutcome TmdbDetail :=
  fun _ => .response 404 "not found" { credits := none, runtime := none }

/-- C2 counterexample: with credentials configured and a stored record
carrying a truthy tmdb_id, a network-level rejection of the outbound request
propagates out of the detail handler as an exception (reaching the central
error handler) instead of rendering the page with "Unknown" placeholders. -/
theorem c2_counterexample :
    movieDetailRoute bothEnv detailDownNet [inception] (some 1) = .error () ∧
    movieDetailRoute bothEnv detailDownNet [inception] (some 1)
      ≠ .ok (.page (unknownPage inception)) := by
  have h1 : movieDetailRoute bothEnv detailDownNet [inception] (some 1) = .error () := rfl
  refine ⟨h1, ?_⟩
  rw [h1]
  intro h
  exact Except.noConfusion h

/-- C2 amended: for a stored record, the detail page degrades to "Unknown"
placeholders whenever the stored tmdb_id is falsy, the credentials are
missing, or the upstream answers non-2xx; on a 2xx answer the three fields
come from the JSON with a zero or absent runtime rendered "Unknown"; but a
network-level rejection of the outbound request propagates as an exception
instead of rendering. -/
theorem c2_detail_enrichment (env : Env) (net : TmdbRequest → FetchOutcome TmdbDetail)
    (movies : List Movie) (id : ℚ) (movie : Movie)
    (hfind : movies.find? (idMatch id) = some movie) :
    (optIntTruthy movie.tmdb_id = false →
      movieDetailRoute env net movies (some id)
        = .ok (.page (unknownPage movie))) ∧
    (getTMDBAuth env = none →
      movieDetailRoute env net movies (some id)
        = .ok (.page (unknownPage movie))) ∧
    (∀ s b d, (∀ r, net r = .response s b d) → ¬(200 ≤ s ∧ s < 300) →
      movieDetailRoute env net movies (some id)
        = .ok (.page (unknownPage movie))) ∧
    (∀ s b d, (∀ r, net r = .response s b d) → 200 ≤ s → s < 300 →
      getTMDBAuth env ≠ none → optIntTruthy movie.tmdb_id = true →
      movieDetailRoute env net movies (some id)
        = .ok (.page (enrichedPage movie d)) ∧
      (d.runtime = none ∨ d.runtime = some 0 → runtimeOf d = "Unknown")) ∧
    ((∀ r, net r = .netError) → getTMDBAuth env ≠ none →
      optIntTruthy movie.tmdb_id = true →
      movieDetailRoute env net movies (some id) = .error ()) := by
  refine ⟨?_, ?_, ?_, ?_, ?_⟩
  · intro htr
    simp [movieDetailRoute, hfind, htr]
  · intro hno
    cases htr : optIntTruthy movie.tmdb_id
    · simp [movieDetailRoute, hfind, htr]
    · simp [movieDetailRoute, hfind, htr, tmdbFetchJson, hno]
  · intro s b d hnet hbad
    cases htr : optIntTruthy movie.tmdb_id
    · simp [movieDetailRoute, hfind, htr]
    · rcases hA : getTMDBAuth env with _ | a
      · simp [movieDetailRoute, hfind, htr, tmdbFetchJson, hA]
      · simp only [movieDetailRoute, hfind]
        rw [tmdbFetchJson_const env net _ _ hnet (by rw [hA]; simp)]
        simp [htr, handleFetch, hbad]
  · intro s b d hnet hs1 hs2 hauth htr
    constructor
    · simp only [movieDetailRoute, hfind]
      rw [tmdbFetchJson_const env net _ _ hnet hauth]
      simp [htr, handleFetch, hs1, hs2]
    · intro h
      rcases h with h | h
      · simp [runtimeOf, h]
      · simp [runtimeOf, h]
  · intro hnet hauth htr
    simp only [movieDetailRoute, hfind]
    rw [tmdbFetchJson_const env net _ _ hnet hauth]
    simp [htr, handleFetch]

/-- C2 witness: an upstream 404 on the concrete stored record renders the
page with the three "Unknown" placeholders. -/
theorem c2_detail_enrichment_witness :
    movieDetailRoute bothEnv detail404Net [inception] (some 1)
      = .ok (.page (unknownPage inception)) :=
  (c2_detail_enrichment bothEnv detail404Net [inception] 1 inception (by decide)).2.2.1
    404 "not found" { credits := none, runtime := none } (fun _ => rfl) (by decide)

end MovieWatchlist
